import Mathlib

/-!
Verification development for the ride-hail dashboard server handlers.

The request handlers under `src/server/src/handlers` are embedded shallowly:
the relational store becomes an explicit `DB` record of row lists, each
handler becomes a pure function from a `DB` (plus its RPC inputs and the
current time) to an `Except` of an error and the updated state.  Numeric
columns (fares, coordinates) are embedded as exact rationals, timestamps as
integers, and the transcendental great-circle distance expression is
abstracted as an explicit function parameter; every filtering, ordering and
state-transition decision is taken verbatim from the source.
-/

namespace RideHail

/-- `user_role` enum from `db/schema.ts`. -/
inductive Role
  | passenger
  | driver
  deriving DecidableEq

/-- `order_status` enum from `db/schema.ts`. -/
inductive OrderStatus
  | pending
  | accepted
  | in_progress
  | completed
  | cancelled
  deriving DecidableEq

/-- `payment_status` enum from `db/schema.ts`. -/
inductive PaymentStatus
  | pending
  | paid
  | failed
  | refunded
  deriving DecidableEq

/-- Error taxonomy of the handlers (each constructor corresponds to one
family of thrown error messages in the source). -/
inductive RideError
  | notFound
  | invalidTransition
  | invalidState
  | ineligible
  | alreadyPaid
  | amountMismatch
  | subscriptionExpired
  deriving DecidableEq

/-- Row of the `users` table (timestamp bookkeeping columns omitted). -/
structure User where
  id : Nat
  email : String
  full_name : String
  phone : String
  role : Role
  deriving DecidableEq

/-- Row of the `driver_profiles` table.  `numeric` coordinate columns are
embedded as rationals, `subscription_expires_at` as an integer instant. -/
structure DriverProfile where
  id : Nat
  user_id : Nat
  license_number : String
  vehicle_type : String
  vehicle_plate : String
  is_available : Bool
  current_latitude : Option ℚ
  current_longitude : Option ℚ
  subscription_expires_at : Option Int
  deriving DecidableEq

/-- Row of the `orders` table. -/
structure Order where
  id : Nat
  passenger_id : Nat
  driver_id : Option Nat
  pickup_latitude : ℚ
  pickup_longitude : ℚ
  pickup_address : String
  destination_latitude : ℚ
  destination_longitude : ℚ
  destination_address : String
  estimated_fare : ℚ
  final_fare : Option ℚ
  status : OrderStatus
  payment_status : PaymentStatus
  qris_payment_id : Option String
  deriving DecidableEq

/-- Row of the `driver_bids` table. -/
structure DriverBid where
  id : Nat
  order_id : Nat
  driver_id : Nat
  bid_amount : ℚ
  estimated_arrival_minutes : Nat
  deriving DecidableEq

/-- The relational store: one list of rows per table the handlers touch. -/
structure DB where
  users : List User
  profiles : List DriverProfile
  orders : List Order
  bids : List DriverBid
  deriving DecidableEq

/-- `select from orders where id = oid` (first matching row). -/
def findOrderById (db : DB) (oid : Nat) : Option Order :=
  db.orders.find? (fun o => decide (o.id = oid))

/-- `select from orders where id = oid and passenger_id = pid`. -/
def findOrderOwned (db : DB) (oid pid : Nat) : Option Order :=
  db.orders.find? (fun o => decide (o.id = oid ∧ o.passenger_id = pid))

/-- The `validTransitions` table of `updateOrderStatus`. -/
def allowedTransitions : OrderStatus → List OrderStatus
  | .pending => [.accepted, .cancelled]
  | .accepted => [.in_progress, .cancelled]
  | .in_progress => [.completed, .cancelled]
  | .completed => []
  | .cancelled => []

/-- The `updateValues` record built by `updateOrderStatus` once the
transition has been validated: new status always, `final_fare` only on a
completion that supplies one, `payment_status` forced to `paid` on
completion and to `refunded` on cancelling a paid order. -/
def applyStatusUpdate (o : Order) (ns : OrderStatus) (fare? : Option ℚ) : Order :=
  { o with
    status := ns
    final_fare := if ns = .completed ∧ fare?.isSome then fare? else o.final_fare
    payment_status :=
      if ns = .completed then .paid
      else if ns = .cancelled ∧ o.payment_status = .paid then .refunded
      else o.payment_status }

/-- `update orders set ... where id = oid`. -/
def replaceOrder (db : DB) (oid : Nat) (u : Order) : DB :=
  { db with orders := db.orders.map (fun r => if r.id = oid then u else r) }

/-- `updateOrderStatus` from `create_driver_profile.ts`: load the order,
validate the transition against `allowedTransitions`, then write the
updated row. -/
def updateOrderStatus (db : DB) (oid : Nat) (ns : OrderStatus) (fare? : Option ℚ) :
    Except RideError (DB × Order) :=
  match findOrderById db oid with
  | none => .error .notFound
  | some o =>
    if ns ∈ allowedTransitions o.status then
      let u := applyStatusUpdate o ns fare?
      .ok (replaceOrder db oid u, u)
    else .error .invalidTransition

/-- `acceptBid` from `create_driver_subscription.ts`: order scoped to the
calling passenger, bid scoped to the order, pending check, then the single
update assigning the bidding driver and its amount as final fare. -/
def acceptBid (db : DB) (oid bidId pid : Nat) : Except RideError (DB × Order) :=
  match findOrderOwned db oid pid with
  | none => .error .notFound
  | some o =>
    match db.bids.find? (fun b => decide (b.id = bidId ∧ b.order_id = oid)) with
    | none => .error .notFound
    | some bd =>
      if o.status = .pending then
        let u := { o with
          status := .accepted
          driver_id := some bd.driver_id
          final_fare := some bd.bid_amount }
        .ok (replaceOrder db oid u, u)
      else .error .invalidState

/-- Mock QRIS payment reference, built from the clock and the order id. -/
def qrisPaymentId (now : Int) (oid : Nat) : String :=
  "QRIS_" ++ toString now ++ "_" ++ toString oid

/-- `processQrisPayment` from `process_qris_payment.ts`: ownership lookup,
payable-status check, already-paid check, then the absolute-tolerance
amount comparison against final fare (falling back to the estimate). -/
def processQrisPayment (db : DB) (oid pid : Nat) (amount : ℚ) (now : Int) :
    Except RideError (DB × Order) :=
  match findOrderOwned db oid pid with
  | none => .error .notFound
  | some o =>
    if o.status = .accepted ∨ o.status = .in_progress ∨ o.status = .completed then
      if o.payment_status = .paid then .error .alreadyPaid
      else
        if 1/100 < |amount - o.final_fare.getD o.estimated_fare| then
          .error .amountMismatch
        else
          let u := { o with
            payment_status := .paid
            qris_payment_id := some (qrisPaymentId now oid) }
          .ok (replaceOrder db oid u, u)
    else .error .invalidState

/-- The `users` side of the inner join in `getNearbyDrivers`: the owning
user row exists and has the driver role. -/
def userIsDriver (db : DB) (uid : Nat) : Bool :=
  match db.users.find? (fun u => decide (u.id = uid)) with
  | some u => decide (u.role = .driver)
  | none => false

/-- `gte(subscription_expires_at, now)` with the `isNotNull` guard, from
the `where` clause of `getNearbyDrivers`. -/
def subscriptionOnOrAfter (sub : Option Int) (now : Int) : Bool :=
  match sub with
  | some t => decide (now ≤ t)
  | none => false

/-- The full `where` clause of `getNearbyDrivers`.  The great-circle
distance expression the SQL evaluates per row is abstracted as the
function `d` from the profile row to its distance from the query point. -/
def nearbyPred (db : DB) (d : DriverProfile → ℚ) (radius : ℚ) (now : Int)
    (p : DriverProfile) : Bool :=
  p.is_available && userIsDriver db p.user_id
    && p.current_latitude.isSome && p.current_longitude.isSome
    && subscriptionOnOrAfter p.subscription_expires_at now
    && decide (d p ≤ radius)

/-- `getNearbyDrivers` from `get_nearby_drivers.ts`: filter by the join
predicate and radius, then `orderBy` the distance expression ascending. -/
def getNearbyDrivers (db : DB) (d : DriverProfile → ℚ) (radius : ℚ) (now : Int) :
    List DriverProfile :=
  List.insertionSort (fun p q => d p ≤ d q)
    (db.profiles.filter (nearbyPred db d radius now))

/-- Bid ordering of `getOrderBids`: ascending `bid_amount`, ties broken by
ascending `estimated_arrival_minutes`. -/
def bidLe (b c : DriverBid) : Prop :=
  b.bid_amount < c.bid_amount ∨
    (b.bid_amount = c.bid_amount ∧
      b.estimated_arrival_minutes ≤ c.estimated_arrival_minutes)

instance : DecidableRel bidLe := fun b c =>
  inferInstanceAs (Decidable (b.bid_amount < c.bid_amount ∨
    (b.bid_amount = c.bid_amount ∧
      b.estimated_arrival_minutes ≤ c.estimated_arrival_minutes)))

instance : IsTotal DriverBid bidLe where
  total b c := by
    rcases lt_trichotomy b.bid_amount c.bid_amount with h | h | h
    · exact Or.inl (Or.inl h)
    · rcases Nat.le_total b.estimated_arrival_minutes c.estimated_arrival_minutes with
        hm | hm
      · exact Or.inl (Or.inr ⟨h, hm⟩)
      · exact Or.inr (Or.inr ⟨h.symm, hm⟩)
    · exact Or.inr (Or.inl h)

instance : IsTrans DriverBid bidLe where
  trans b c e hbc hce := by
    rcases hbc with h1 | ⟨h1, m1⟩
    · rcases hce with h2 | ⟨h2, _⟩
      · exact Or.inl (h1.trans h2)
      · exact Or.inl (h2 ▸ h1)
    · rcases hce with h2 | ⟨h2, m2⟩
      · exact Or.inl (h1 ▸ h2)
      · exact Or.inr ⟨h1.trans h2, m1.trans m2⟩

/-- `getOrderBids` from the unnamed handler source: order must exist and
still be pending, then all its bids are returned in `bidLe` order. -/
def getOrderBids (db : DB) (oid : Nat) : Except RideError (List DriverBid) :=
  match findOrderById db oid with
  | none => .error .notFound
  | some o =>
    if o.status = .pending then
      .ok (List.insertionSort bidLe
        (db.bids.filter (fun b => decide (b.order_id = oid))))
    else .error .invalidState

/-- `getAvailableOrders` from `get_available_orders.ts`.  The Haversine
helper `calculateDistance` is abstracted as the parameter `hav` on the two
coordinate pairs.  Note the strict `expires_at < now` comparison guarding
the empty-list fallback. -/
def getAvailableOrders (db : DB) (hav : ℚ → ℚ → ℚ → ℚ → ℚ)
    (driverId : Nat) (now : Int) : Except RideError (List Order) :=
  match db.profiles.find? (fun p => decide (p.user_id = driverId)) with
  | none => .error .notFound
  | some profile =>
    match profile.subscription_expires_at with
    | none => .ok []
    | some t =>
      if t < now then .ok []
      else
        let pendingOrders := db.orders.filter
          (fun o => decide (o.status = .pending ∧ o.driver_id = none))
        match profile.current_latitude, profile.current_longitude with
        | some lat, some lng =>
          .ok (List.insertionSort
            (fun a b => hav lat lng a.pickup_latitude a.pickup_longitude ≤
              hav lat lng b.pickup_latitude b.pickup_longitude)
            (pendingOrders.filter (fun o =>
              decide (hav lat lng o.pickup_latitude o.pickup_longitude ≤ 20))))
        | _, _ => .ok pendingOrders

/-- `!subscription_expires_at || subscription_expires_at <= now`, the
eligibility guard of `createDriverBid`. -/
def subscriptionInactive (sub : Option Int) (now : Int) : Bool :=
  match sub with
  | some t => decide (t ≤ now)
  | none => true

/-- Serial id for a freshly inserted bid row. -/
def freshBidId (db : DB) : Nat :=
  db.bids.foldr (fun b acc => max b.id acc) 0 + 1

/-- `createDriverBid` from `get_nearby_drivers.ts` (second handler in that
file): order exists and is pending, the driver user/profile join succeeds,
the driver is available and the subscription is active, then the bid row
is inserted. -/
def createDriverBid (db : DB) (oid did : Nat) (amount : ℚ) (mins : Nat)
    (now : Int) : Except RideError (DB × DriverBid) :=
  match findOrderById db oid with
  | none => .error .notFound
  | some o =>
    if o.status = .pending then
      match db.users.find? (fun u => decide (u.id = did ∧ u.role = .driver)),
            db.profiles.find? (fun p => decide (p.user_id = did)) with
      | some _, some profile =>
        if profile.is_available then
          if subscriptionInactive profile.subscription_expires_at now then
            .error .ineligible
          else
            let bd : DriverBid :=
              { id := freshBidId db
                order_id := oid
                driver_id := did
                bid_amount := amount
                estimated_arrival_minutes := mins }
            .ok ({ db with bids := db.bids ++ [bd] }, bd)
        else .error .ineligible
      | _, _ => .error .notFound
    else .error .invalidState

/-- `subscription_expires_at && subscription_expires_at <= now`, the
expiry guard of `updateDriverLocation` (a null subscription passes). -/
def subscriptionExpiredStrict (sub : Option Int) (now : Int) : Bool :=
  match sub with
  | some t => decide (t ≤ now)
  | none => false

/-- `update driver_profiles set ... where user_id = did`. -/
def replaceProfile (db : DB) (did : Nat) (u : DriverProfile) : DB :=
  { db with profiles := db.profiles.map (fun p => if p.user_id = did then u else p) }

/-- `updateDriverLocation` from `create_driver_bid.ts`: the user/profile
join must succeed, a non-null expired subscription aborts, otherwise the
location and availability are written. -/
def updateDriverLocation (db : DB) (did : Nat) (lat lng : ℚ) (avail : Bool)
    (now : Int) : Except RideError (DB × DriverProfile) :=
  match db.users.find? (fun u => decide (u.id = did ∧ u.role = .driver)),
        db.profiles.find? (fun p => decide (p.user_id = did)) with
  | some _, some profile =>
    if subscriptionExpiredStrict profile.subscription_expires_at now then
      .error .subscriptionExpired
    else
      let u := { profile with
        current_latitude := some lat
        current_longitude := some lng
        is_available := avail }
      .ok (replaceProfile db did u, u)
  | _, _ => .error .notFound

/-! ### Concrete sample rows used to instantiate the theorems -/

/-- Sample passenger. -/
def passenger1 : User :=
  { id := 1, email := "p@example.com", full_name := "Pat", phone := "0812345678",
    role := .passenger }

/-- Sample driver with an available, located, subscribed profile. -/
def driver1 : User :=
  { id := 2, email := "d@example.com", full_name := "Dee", phone := "0812345679",
    role := .driver }

/-- Driver with a profile that never purchased a subscription. -/
def driver3 : User :=
  { id := 4, email := "n@example.com", full_name := "Noa", phone := "0812345680",
    role := .driver }

/-- Profile of `driver1`: available, located at the origin, subscription
expiring at instant 100. -/
def profile1 : DriverProfile :=
  { id := 1, user_id := 2, license_number := "L1", vehicle_type := "Sedan",
    vehicle_plate := "AB123", is_available := true,
    current_latitude := some 0, current_longitude := some 0,
    subscription_expires_at := some 100 }

/-- Profile of `driver3`: null subscription. -/
def profile3 : DriverProfile :=
  { id := 3, user_id := 4, license_number := "L3", vehicle_type := "Bike",
    vehicle_plate := "CD456", is_available := false,
    current_latitude := none, current_longitude := none,
    subscription_expires_at := none }

/-- An order currently in progress, unpaid. -/
def orderInProgress : Order :=
  { id := 10, passenger_id := 1, driver_id := some 2,
    pickup_latitude := 0, pickup_longitude := 0, pickup_address := "A",
    destination_latitude := 1, destination_longitude := 1, destination_address := "B",
    estimated_fare := 25000, final_fare := some 23000,
    status := .in_progress, payment_status := .pending, qris_payment_id := none }

/-- A pending, unassigned order. -/
def orderPending : Order :=
  { id := 11, passenger_id := 1, driver_id := none,
    pickup_latitude := 0, pickup_longitude := 0, pickup_address := "A",
    destination_latitude := 1, destination_longitude := 1, destination_address := "B",
    estimated_fare := 25000, final_fare := none,
    status := .pending, payment_status := .pending, qris_payment_id := none }

/-- An accepted order with a finalized fare, unpaid. -/
def orderAccepted : Order :=
  { id := 12, passenger_id := 1, driver_id := some 2,
    pickup_latitude := 0, pickup_longitude := 0, pickup_address := "A",
    destination_latitude := 1, destination_longitude := 1, destination_address := "B",
    estimated_fare := 25000, final_fare := some 23000,
    status := .accepted, payment_status := .pending, qris_payment_id := none }

/-- An in-progress order that has already been paid. -/
def orderInProgressPaid : Order :=
  { id := 13, passenger_id := 1, driver_id := some 2,
    pickup_latitude := 0, pickup_longitude := 0, pickup_address := "A",
    destination_latitude := 1, destination_longitude := 1, destination_address := "B",
    estimated_fare := 25000, final_fare := some 23000,
    status := .in_progress, payment_status := .paid, qris_payment_id := none }

/-- The cheaper, slower bid on `orderPending`. -/
def bid1 : DriverBid :=
  { id := 5, order_id := 11, driver_id := 2, bid_amount := 23000,
    estimated_arrival_minutes := 15 }

/-- The pricier, faster bid on `orderPending`. -/
def bid2 : DriverBid :=
  { id := 6, order_id := 11, driver_id := 2, bid_amount := 25000,
    estimated_arrival_minutes := 10 }

/-- A stale bid recorded against the already-accepted order. -/
def bid3 : DriverBid :=
  { id := 7, order_id := 12, driver_id := 2, bid_amount := 23000,
    estimated_arrival_minutes := 15 }

/-- The sample store. -/
def sampleDB : DB :=
  { users := [passenger1, driver1, driver3]
    profiles := [profile1, profile3]
    orders := [orderInProgress, orderPending, orderAccepted, orderInProgressPaid]
    bids := [bid1, bid2, bid3] }

/-- Driver used for the expiry-boundary scenario. -/
def driver5 : User :=
  { id := 6, email := "b@example.com", full_name := "Bo", phone := "0812345681",
    role := .driver }

/-- Profile of `driver5`: available, location unknown, subscription
expiring exactly at instant 100. -/
def profile5 : DriverProfile :=
  { id := 5, user_id := 6, license_number := "L5", vehicle_type := "Car",
    vehicle_plate := "EF789", is_available := true,
    current_latitude := none, current_longitude := none,
    subscription_expires_at := some 100 }

/-- Store for the expiry-boundary scenario. -/
def boundaryDB : DB :=
  { users := [passenger1, driver5]
    profiles := [profile5]
    orders := [orderPending]
    bids := [] }

/-! ### Helper lemmas -/

/-- A `find?` on a row list after an `update ... where`-style replacement:
if some row matched the lookup predicate `q` before, and every `q`-match
also matches the update condition `r.id = oid`, then the lookup now
returns the replacement row. -/
theorem find?_map_ite_of_imp (l : List Order) (oid : Nat) (u : Order)
    (q : Order → Bool) (hqu : q u = true)
    (himp : ∀ r, q r = true → r.id = oid)
    (h : (l.find? q).isSome) :
    (l.map (fun r => if r.id = oid then u else r)).find? q = some u := by
  induction l with
  | nil => simp [List.find?] at h
  | cons a l ih =>
    by_cases ha : a.id = oid
    · simp [ha, List.find?_cons, hqu]
    · have hqa : ¬ q a = true := fun hq => absurd (himp a hq) ha
      rw [List.find?_cons_of_neg _ hqa] at h
      simp only [List.map_cons, if_neg ha]
      rw [List.find?_cons_of_neg _ hqa]
      exact ih h

/-- The transition-table membership test, spelled out pair by pair. -/
theorem mem_allowedTransitions (s ns : OrderStatus) :
    ns ∈ allowedTransitions s ↔
      ((s = .pending ∧ (ns = .accepted ∨ ns = .cancelled))
        ∨ (s = .accepted ∧ (ns = .in_progress ∨ ns = .cancelled))
        ∨ (s = .in_progress ∧ (ns = .completed ∨ ns = .cancelled))) := by
  cases s <;> cases ns <;> decide

/-! ### Claim theorems -/

/-- C1: for every existing order and requested new status,
`updateOrderStatus` fails with the invalid-transition error if and only if
the pair (current status, new status) is outside the table
pending→{accepted, cancelled}, accepted→{in_progress, cancelled},
in_progress→{completed, cancelled}, with completed and cancelled having no
outgoing transitions. -/
theorem updateOrderStatus_invalid_iff
    (db : DB) (oid : Nat) (ns : OrderStatus) (fare? : Option ℚ) (o : Order)
    (h : findOrderById db oid = some o) :
    updateOrderStatus db oid ns fare? = .error .invalidTransition ↔
      ¬ ((o.status = .pending ∧ (ns = .accepted ∨ ns = .cancelled))
        ∨ (o.status = .accepted ∧ (ns = .in_progress ∨ ns = .cancelled))
        ∨ (o.status = .in_progress ∧ (ns = .completed ∨ ns = .cancelled))) := by
  rw [← mem_allowedTransitions]
  unfold updateOrderStatus
  rw [h]
  by_cases hm : ns ∈ allowedTransitions o.status
  · simp [hm]
  · simp [hm]

/-- Witness for C1: an in-progress order rejects a move back to pending. -/
theorem updateOrderStatus_invalid_iff_witness :
    findOrderById sampleDB 10 = some orderInProgress
    ∧ (updateOrderStatus sampleDB 10 .pending none = .error .invalidTransition ↔
        ¬ ((orderInProgress.status = .pending
              ∧ (OrderStatus.pending = .accepted ∨ OrderStatus.pending = .cancelled))
          ∨ (orderInProgress.status = .accepted
              ∧ (OrderStatus.pending = .in_progress ∨ OrderStatus.pending = .cancelled))
          ∨ (orderInProgress.status = .in_progress
              ∧ (OrderStatus.pending = .completed ∨ OrderStatus.pending = .cancelled)))) :=
  ⟨rfl, updateOrderStatus_invalid_iff sampleDB 10 .pending none orderInProgress rfl⟩

/-- C2: completing an in-progress order forces `payment_status` to `paid`,
overwrites `final_fare` exactly when a value is supplied, and stores the
updated row. -/
theorem updateOrderStatus_completed_spec
    (db : DB) (oid : Nat) (fare? : Option ℚ) (o : Order)
    (h : findOrderById db oid = some o) (hs : o.status = .in_progress) :
    ∃ db' u, updateOrderStatus db oid .completed fare? = .ok (db', u)
      ∧ u.payment_status = .paid
      ∧ (∀ f, fare? = some f → u.final_fare = some f)
      ∧ (fare? = none → u.final_fare = o.final_fare)
      ∧ findOrderById db' oid = some u := by
  have hmem : OrderStatus.completed ∈ allowedTransitions o.status := by
    rw [hs]; decide
  have hfind : db.orders.find? (fun r => decide (r.id = oid)) = some o := h
  have hid : o.id = oid := by
    have h2 := List.find?_some hfind
    simp only [decide_eq_true_eq] at h2
    exact h2
  unfold updateOrderStatus
  rw [h]
  dsimp only
  rw [if_pos hmem]
  refine ⟨_, _, rfl, ?_, ?_, ?_, ?_⟩
  · simp [applyStatusUpdate]
  · intro f hf
    simp [applyStatusUpdate, hf]
  · intro hf
    simp [applyStatusUpdate, hf]
  · unfold findOrderById replaceOrder
    apply find?_map_ite_of_imp
    · exact decide_eq_true (show (applyStatusUpdate o .completed fare?).id = oid from hid)
    · intro r hr
      exact of_decide_eq_true hr
    · rw [hfind]
      rfl

/-- Witness for C2: completing the sample in-progress order with a
supplied final fare. -/
theorem updateOrderStatus_completed_spec_witness :
    findOrderById sampleDB 10 = some orderInProgress
    ∧ orderInProgress.status = .in_progress
    ∧ ∃ db' u, updateOrderStatus sampleDB 10 .completed (some 30000) = .ok (db', u)
        ∧ u.payment_status = .paid
        ∧ (∀ f, (some (30000:ℚ)) = some f → u.final_fare = some f)
        ∧ ((some (30000:ℚ)) = none → u.final_fare = orderInProgress.final_fare)
        ∧ findOrderById db' 10 = some u :=
  ⟨rfl, rfl,
    updateOrderStatus_completed_spec sampleDB 10 (some 30000) orderInProgress rfl rfl⟩

/-- C3: cancelling an order whose status allows it sets `payment_status`
to `refunded` exactly when the order was paid, and leaves it unchanged
otherwise. -/
theorem updateOrderStatus_cancelled_spec
    (db : DB) (oid : Nat) (fare? : Option ℚ) (o : Order)
    (h : findOrderById db oid = some o)
    (hc : OrderStatus.cancelled ∈ allowedTransitions o.status) :
    ∃ db' u, updateOrderStatus db oid .cancelled fare? = .ok (db', u)
      ∧ u.status = .cancelled
      ∧ u.payment_status =
          (if o.payment_status = .paid then .refunded else o.payment_status) := by
  unfold updateOrderStatus
  rw [h]
  dsimp only
  rw [if_pos hc]
  refine ⟨_, _, rfl, rfl, ?_⟩
  by_cases hp : o.payment_status = .paid
  · simp [applyStatusUpdate, hp]
  · simp [applyStatusUpdate, hp]

/-- Witness for C3: cancelling the sample paid in-progress order refunds
it. -/
theorem updateOrderStatus_cancelled_spec_witness :
    findOrderById sampleDB 13 = some orderInProgressPaid
    ∧ OrderStatus.cancelled ∈ allowedTransitions orderInProgressPaid.status
    ∧ ∃ db' u, updateOrderStatus sampleDB 13 .cancelled none = .ok (db', u)
        ∧ u.status = .cancelled
        ∧ u.payment_status =
            (if orderInProgressPaid.payment_status = .paid then .refunded
              else orderInProgressPaid.payment_status) :=
  ⟨rfl, by decide,
    updateOrderStatus_cancelled_spec sampleDB 13 none orderInProgressPaid rfl (by decide)⟩

/-- C4: accepting a bid on a pending order owned by the caller assigns
the bidding driver, finalizes the fare at the bid amount, and leaves the
stored bid rows untouched. -/
theorem acceptBid_success_spec
    (db : DB) (oid bidId pid : Nat) (o : Order) (bd : DriverBid)
    (ho : findOrderOwned db oid pid = some o) (hs : o.status = .pending)
    (hb : db.bids.find? (fun b => decide (b.id = bidId ∧ b.order_id = oid)) = some bd) :
    ∃ db' u, acceptBid db oid bidId pid = .ok (db', u)
      ∧ u.status = .accepted
      ∧ u.driver_id = some bd.driver_id
      ∧ u.final_fare = some bd.bid_amount
      ∧ db'.bids = db.bids := by
  unfold acceptBid
  rw [ho]
  dsimp only
  rw [hb]
  dsimp only
  rw [if_pos hs]
  exact ⟨_, _, rfl, rfl, rfl, rfl, rfl⟩

/-- Witness for C4: the passenger accepts the cheaper sample bid. -/
theorem acceptBid_success_spec_witness :
    findOrderOwned sampleDB 11 1 = some orderPending
    ∧ orderPending.status = .pending
    ∧ sampleDB.bids.find? (fun b => decide (b.id = 5 ∧ b.order_id = 11)) = some bid1
    ∧ ∃ db' u, acceptBid sampleDB 11 5 1 = .ok (db', u)
        ∧ u.status = .accepted
        ∧ u.driver_id = some bid1.driver_id
        ∧ u.final_fare = some bid1.bid_amount
        ∧ db'.bids = sampleDB.bids :=
  ⟨rfl, rfl, rfl, acceptBid_success_spec sampleDB 11 5 1 orderPending bid1 rfl rfl rfl⟩

/-- C8: with an existing bid of the order, `acceptBid` fails with the
invalid-state error whenever the order is not pending, and in particular
repeating a successful `acceptBid` fails with the invalid-state error. -/
theorem acceptBid_nonpending_spec
    (db : DB) (oid bidId pid : Nat) (o : Order) (bd : DriverBid)
    (ho : findOrderOwned db oid pid = some o)
    (hb : db.bids.find? (fun b => decide (b.id = bidId ∧ b.order_id = oid)) = some bd) :
    (o.status ≠ .pending → acceptBid db oid bidId pid = .error .invalidState)
    ∧ (∀ db' u, acceptBid db oid bidId pid = .ok (db', u) →
        acceptBid db' oid bidId pid = .error .invalidState) := by
  have hfind : db.orders.find? (fun r => decide (r.id = oid ∧ r.passenger_id = pid))
      = some o := ho
  have hmatch : o.id = oid ∧ o.passenger_id = pid := by
    have h2 := List.find?_some hfind
    simp only [decide_eq_true_eq] at h2
    exact h2
  constructor
  · intro hns
    unfold acceptBid
    rw [ho]
    dsimp only
    rw [hb]
    dsimp only
    rw [if_neg hns]
  · intro db' u hok
    unfold acceptBid at hok
    rw [ho] at hok
    dsimp only at hok
    rw [hb] at hok
    dsimp only at hok
    by_cases hs : o.status = .pending
    · rw [if_pos hs] at hok
      simp only [Except.ok.injEq, Prod.mk.injEq] at hok
      obtain ⟨hdb, hu⟩ := hok
      subst hdb
      subst hu
      unfold acceptBid
      have h1 : findOrderOwned
          (replaceOrder db oid { o with
            status := .accepted
            driver_id := some bd.driver_id
            final_fare := some bd.bid_amount }) oid pid
          = some { o with
            status := .accepted
            driver_id := some bd.driver_id
            final_fare := some bd.bid_amount } := by
        unfold findOrderOwned replaceOrder
        apply find?_map_ite_of_imp
        · exact decide_eq_true hmatch
        · intro r hr
          exact (of_decide_eq_true hr).1
        · rw [hfind]
          rfl
      rw [h1]
      dsimp only
      have h2 : (replaceOrder db oid { o with
          status := .accepted
          driver_id := some bd.driver_id
          final_fare := some bd.bid_amount }).bids = db.bids := rfl
      rw [h2, hb]
      dsimp only
      rw [if_neg (by decide)]
    · rw [if_neg hs] at hok
      simp at hok

/-- Witness for C8: accepting the stale bid on the already-accepted sample
order fails, and a successful accept cannot be repeated. -/
theorem acceptBid_nonpending_spec_witness :
    findOrderOwned sampleDB 12 1 = some orderAccepted
    ∧ sampleDB.bids.find? (fun b => decide (b.id = 7 ∧ b.order_id = 12)) = some bid3
    ∧ ((orderAccepted.status ≠ .pending →
          acceptBid sampleDB 12 7 1 = .error .invalidState)
      ∧ (∀ db' u, acceptBid sampleDB 12 7 1 = .ok (db', u) →
          acceptBid db' 12 7 1 = .error .invalidState)) :=
  ⟨rfl, rfl, acceptBid_nonpending_spec sampleDB 12 7 1 orderAccepted bid3 rfl rfl⟩

/-- C5: for a payable, unpaid order owned by the caller,
`processQrisPayment` succeeds exactly when the amount is within the
absolute tolerance 1/100 of the expected fare (final fare when present,
estimated fare otherwise), and fails with the amount-mismatch error
exactly when the difference exceeds 1/100. -/
theorem processQrisPayment_tolerance_spec
    (db : DB) (oid pid : Nat) (amount : ℚ) (now : Int) (o : Order)
    (h : findOrderOwned db oid pid = some o)
    (hs : o.status = .accepted ∨ o.status = .in_progress ∨ o.status = .completed)
    (hp : o.payment_status ≠ .paid) :
    ((∃ r, processQrisPayment db oid pid amount now = .ok r) ↔
        |amount - o.final_fare.getD o.estimated_fare| ≤ 1/100)
    ∧ (processQrisPayment db oid pid amount now = .error .amountMismatch ↔
        1/100 < |amount - o.final_fare.getD o.estimated_fare|) := by
  unfold processQrisPayment
  rw [h]
  dsimp only
  rw [if_pos hs, if_neg hp]
  by_cases hm : 1/100 < |amount - o.final_fare.getD o.estimated_fare|
  · rw [if_pos hm]
    refine ⟨iff_of_false ?_ (not_le.mpr hm), iff_of_true rfl hm⟩
    rintro ⟨r, hr⟩
    simp at hr
  · rw [if_neg hm]
    refine ⟨iff_of_true ⟨_, rfl⟩ (not_lt.mp hm), iff_of_false ?_ hm⟩
    intro hcon
    simp at hcon

/-- Witness for C5: paying the accepted sample order an amount 1/200 above
its finalized fare. -/
theorem processQrisPayment_tolerance_spec_witness :
    findOrderOwned sampleDB 12 1 = some orderAccepted
    ∧ (orderAccepted.status = .accepted ∨ orderAccepted.status = .in_progress
        ∨ orderAccepted.status = .completed)
    ∧ orderAccepted.payment_status ≠ .paid
    ∧ (((∃ r, processQrisPayment sampleDB 12 1 (23000 + 1/200) 0 = .ok r) ↔
          |(23000 + 1/200 : ℚ)
              - orderAccepted.final_fare.getD orderAccepted.estimated_fare| ≤ 1/100)
      ∧ (processQrisPayment sampleDB 12 1 (23000 + 1/200) 0 = .error .amountMismatch ↔
          1/100 < |(23000 + 1/200 : ℚ)
              - orderAccepted.final_fare.getD orderAccepted.estimated_fare|)) :=
  ⟨rfl, Or.inl rfl, by decide,
    processQrisPayment_tolerance_spec sampleDB 12 1 (23000 + 1/200) 0 orderAccepted
      rfl (Or.inl rfl) (by decide)⟩

/-- C7: for an existing pending order, `getOrderBids` returns exactly the
bids of that order, sorted non-decreasing by amount with amount ties
sorted non-decreasing by estimated arrival; for an existing non-pending
order it fails with the invalid-state error. -/
theorem getOrderBids_spec (db : DB) (oid : Nat) (o : Order)
    (h : findOrderById db oid = some o) :
    (o.status = .pending →
      ∃ l, getOrderBids db oid = .ok l
        ∧ l.Perm (db.bids.filter (fun b => decide (b.order_id = oid)))
        ∧ List.Pairwise (fun b c => b.bid_amount ≤ c.bid_amount
            ∧ (b.bid_amount = c.bid_amount →
                b.estimated_arrival_minutes ≤ c.estimated_arrival_minutes)) l)
    ∧ (o.status ≠ .pending → getOrderBids db oid = .error .invalidState) := by
  constructor
  · intro hs
    unfold getOrderBids
    rw [h]
    dsimp only
    rw [if_pos hs]
    refine ⟨_, rfl, List.perm_insertionSort bidLe _, ?_⟩
    have hpair : List.Pairwise bidLe
        (List.insertionSort bidLe (db.bids.filter (fun b => decide (b.order_id = oid)))) :=
      List.sorted_insertionSort bidLe _
    refine hpair.imp ?_
    intro b c hbc
    rcases hbc with hlt | ⟨heq, hmins⟩
    · exact ⟨hlt.le, fun heq2 => absurd heq2 (ne_of_lt hlt)⟩
    · exact ⟨heq.le, fun _ => hmins⟩
  · intro hns
    unfold getOrderBids
    rw [h]
    dsimp only
    rw [if_neg hns]

/-- Witness for C7: the two sample bids on the pending order come back
cheapest first. -/
theorem getOrderBids_spec_witness :
    findOrderById sampleDB 11 = some orderPending
    ∧ orderPending.status = .pending
    ∧ ∃ l, getOrderBids sampleDB 11 = .ok l
        ∧ l.Perm (sampleDB.bids.filter (fun b => decide (b.order_id = 11)))
        ∧ List.Pairwise (fun b c => b.bid_amount ≤ c.bid_amount
            ∧ (b.bid_amount = c.bid_amount →
                b.estimated_arrival_minutes ≤ c.estimated_arrival_minutes)) l :=
  ⟨rfl, rfl, (getOrderBids_spec sampleDB 11 orderPending rfl).1 rfl⟩

/-- C6 (amended): every profile returned by `getNearbyDrivers` is
available, owned by a driver-role user, fully located, carries a non-null
subscription expiring at or after the current time (the code's `gte`
bound), lies within the radius, and the list is sorted ascending by the
distance expression. -/
theorem getNearbyDrivers_sound (db : DB) (d : DriverProfile → ℚ) (radius : ℚ)
    (now : Int) :
    (∀ p, p ∈ getNearbyDrivers db d radius now →
      p.is_available = true
      ∧ userIsDriver db p.user_id = true
      ∧ p.current_latitude.isSome = true
      ∧ p.current_longitude.isSome = true
      ∧ (∃ t, p.subscription_expires_at = some t ∧ now ≤ t)
      ∧ d p ≤ radius)
    ∧ List.Pairwise (fun p q => d p ≤ d q) (getNearbyDrivers db d radius now) := by
  constructor
  · intro p hp
    unfold getNearbyDrivers at hp
    rw [List.Perm.mem_iff (List.perm_insertionSort _ _)] at hp
    rw [List.mem_filter] at hp
    obtain ⟨_, hpred⟩ := hp
    unfold nearbyPred at hpred
    simp only [Bool.and_eq_true, decide_eq_true_eq] at hpred
    obtain ⟨⟨⟨⟨⟨ha, hd⟩, hlat⟩, hlng⟩, hsub⟩, hrad⟩ := hpred
    refine ⟨ha, hd, hlat, hlng, ?_, hrad⟩
    unfold subscriptionOnOrAfter at hsub
    cases hs : p.subscription_expires_at with
    | none =>
      rw [hs] at hsub
      simp at hsub
    | some t =>
      rw [hs] at hsub
      simp only [decide_eq_true_eq] at hsub
      exact ⟨t, rfl, hsub⟩
  · unfold getNearbyDrivers
    haveI : IsTotal DriverProfile (fun p q => d p ≤ d q) :=
      ⟨fun a b => le_total (d a) (d b)⟩
    haveI : IsTrans DriverProfile (fun p q => d p ≤ d q) :=
      ⟨fun a b c hab hbc => le_trans hab hbc⟩
    exact List.sorted_insertionSort _ _

/-- Counterexample for C6 as stated: with the clock at instant 100, the
sample profile whose subscription expires exactly at 100 is still
returned, so a returned driver need not have an expiry strictly greater
than the current time. -/
theorem getNearbyDrivers_strict_expiry_counterexample :
    profile1 ∈ getNearbyDrivers sampleDB (fun _ => 0) 10 100
    ∧ profile1.subscription_expires_at = some 100
    ∧ ¬ ((100:Int) < 100) :=
  ⟨by decide, rfl, by decide⟩

/-- Witness for C6 (amended): the sample profile is returned at instant
50 and satisfies every listed property. -/
theorem getNearbyDrivers_sound_witness :
    profile1 ∈ getNearbyDrivers sampleDB (fun _ => 0) 10 50
    ∧ (profile1.is_available = true
      ∧ userIsDriver sampleDB profile1.user_id = true
      ∧ profile1.current_latitude.isSome = true
      ∧ profile1.current_longitude.isSome = true
      ∧ (∃ t, profile1.subscription_expires_at = some t ∧ (50:Int) ≤ t)
      ∧ (0:ℚ) ≤ 10) :=
  ⟨by decide,
    (getNearbyDrivers_sound sampleDB (fun _ => 0) 10 50).1 profile1 (by decide)⟩

/-- C9: at the exact expiry instant, `getAvailableOrders` still treats the
subscription as active (its guard is `expires_at < now`) and lists the
pending unassigned orders, while `createDriverBid` (guard
`expires_at <= now`) rejects the same driver as ineligible. -/
theorem subscriptionBoundary_spec
    (db : DB) (hav : ℚ → ℚ → ℚ → ℚ → ℚ) (did : Nat) (now : Int)
    (profile : DriverProfile)
    (hp : db.profiles.find? (fun p => decide (p.user_id = did)) = some profile)
    (he : profile.subscription_expires_at = some now)
    (hlat : profile.current_latitude = none) :
    getAvailableOrders db hav did now
      = .ok (db.orders.filter (fun o => decide (o.status = .pending ∧ o.driver_id = none)))
    ∧ (∀ oid o amount mins, findOrderById db oid = some o → o.status = .pending →
        (db.users.find? (fun u => decide (u.id = did ∧ u.role = .driver))).isSome →
        profile.is_available = true →
        createDriverBid db oid did amount mins now = .error .ineligible) := by
  constructor
  · unfold getAvailableOrders
    rw [hp]
    dsimp only
    rw [he]
    dsimp only
    rw [if_neg (lt_irrefl now)]
    rw [hlat]
  · intro oid o amount mins ho hs hu havail
    obtain ⟨u, hu'⟩ := Option.isSome_iff_exists.mp hu
    unfold createDriverBid
    rw [ho]
    dsimp only
    rw [if_pos hs]
    rw [hu', hp]
    dsimp only
    rw [if_pos havail]
    rw [he]
    simp [subscriptionInactive]

/-- Witness for C9: with the clock at the sample profile's exact expiry
instant 100, orders are still listed but bidding is rejected. -/
theorem subscriptionBoundary_spec_witness :
    boundaryDB.profiles.find? (fun p => decide (p.user_id = 6)) = some profile5
    ∧ profile5.subscription_expires_at = some 100
    ∧ profile5.current_latitude = none
    ∧ getAvailableOrders boundaryDB (fun _ _ _ _ => 0) 6 100
        = .ok (boundaryDB.orders.filter
            (fun o => decide (o.status = .pending ∧ o.driver_id = none)))
    ∧ createDriverBid boundaryDB 11 6 20000 10 100 = .error .ineligible :=
  ⟨rfl, rfl, rfl,
    (subscriptionBoundary_spec boundaryDB (fun _ _ _ _ => 0) 6 100 profile5
      rfl rfl rfl).1,
    (subscriptionBoundary_spec boundaryDB (fun _ _ _ _ => 0) 6 100 profile5
      rfl rfl rfl).2 11 orderPending 20000 10 rfl rfl rfl rfl⟩

/-- C10: given the driver user/profile join succeeds,
`updateDriverLocation` fails with the subscription-expired error exactly
when `subscription_expires_at` is non-null and at or before the current
time, and with a null subscription it succeeds and writes location and
availability. -/
theorem updateDriverLocation_spec
    (db : DB) (did : Nat) (lat lng : ℚ) (avail : Bool) (now : Int)
    (u : User) (profile : DriverProfile)
    (hu : db.users.find? (fun v => decide (v.id = did ∧ v.role = .driver)) = some u)
    (hp : db.profiles.find? (fun p => decide (p.user_id = did)) = some profile) :
    (updateDriverLocation db did lat lng avail now = .error .subscriptionExpired ↔
      ∃ t, profile.subscription_expires_at = some t ∧ t ≤ now)
    ∧ (profile.subscription_expires_at = none →
        ∃ db' p', updateDriverLocation db did lat lng avail now = .ok (db', p')
          ∧ p'.current_latitude = some lat ∧ p'.current_longitude = some lng
          ∧ p'.is_available = avail) := by
  constructor
  · unfold updateDriverLocation
    rw [hu, hp]
    dsimp only
    by_cases hb : subscriptionExpiredStrict profile.subscription_expires_at now = true
    · rw [if_pos hb]
      refine iff_of_true rfl ?_
      unfold subscriptionExpiredStrict at hb
      cases hs : profile.subscription_expires_at with
      | none =>
        rw [hs] at hb
        simp at hb
      | some t =>
        rw [hs] at hb
        simp only [decide_eq_true_eq] at hb
        exact ⟨t, rfl, hb⟩
    · rw [if_neg hb]
      refine iff_of_false (by simp) ?_
      rintro ⟨t, ht, hle⟩
      apply hb
      rw [ht]
      exact decide_eq_true hle
  · intro hn
    unfold updateDriverLocation
    rw [hu, hp]
    dsimp only
    rw [hn]
    rw [if_neg (by simp [subscriptionExpiredStrict])]
    exact ⟨_, _, rfl, rfl, rfl, rfl⟩

/-- Witness for C10: at instant 100 the subscribed sample profile (expiry
100) is rejected as expired, while the never-subscribed profile gets its
location updated. -/
theorem updateDriverLocation_spec_witness :
    sampleDB.users.find? (fun v => decide (v.id = 2 ∧ v.role = .driver)) = some driver1
    ∧ sampleDB.profiles.find? (fun p => decide (p.user_id = 2)) = some profile1
    ∧ (updateDriverLocation sampleDB 2 1 1 true 100 = .error .subscriptionExpired ↔
        ∃ t, profile1.subscription_expires_at = some t ∧ t ≤ (100:Int))
    ∧ sampleDB.users.find? (fun v => decide (v.id = 4 ∧ v.role = .driver)) = some driver3
    ∧ sampleDB.profiles.find? (fun p => decide (p.user_id = 4)) = some profile3
    ∧ ∃ db' p', updateDriverLocation sampleDB 4 1 1 true 100 = .ok (db', p')
        ∧ p'.current_latitude = some 1 ∧ p'.current_longitude = some 1
        ∧ p'.is_available = true :=
  ⟨rfl, rfl,
    (updateDriverLocation_spec sampleDB 2 1 1 true 100 driver1 profile1 rfl rfl).1,
    rfl, rfl,
    (updateDriverLocation_spec sampleDB 4 1 1 true 100 driver3 profile3 rfl rfl).2 rfl⟩

end RideHail
